import Mathlib

/-!
Verification of the plex-ai-titler core against its source
(`plex_ai_titler.py`).  Python strings are modelled as lists of
characters (`Str`), machine-level effects (file reads, network calls,
interactive input) as explicit environment records, and Python
exceptions as `Except` errors.
-/

/-- Python strings are modelled as lists of characters. -/
abbrev Str := List Char

/-- Conversion from Lean string literals to the model type. -/
def str (s : String) : Str := s.data

/-- `os.sep` on POSIX. -/
def pySep : Char := '/'

/-- `location.rstrip(os.sep)`: remove every trailing separator. -/
def rstripSep (s : Str) : Str :=
  (s.reverse.dropWhile (fun c => c = pySep)).reverse

/-- `os.path.basename`: the part of the path after the last separator. -/
def basename (s : Str) : Str :=
  (s.reverse.takeWhile (fun c => c ≠ pySep)).reverse

/-- `location.rstrip(os.sep) + os.sep`: the normalized root used for the
literal-prefix test in `get_relative_path`. -/
def normalizeRoot (location : Str) : Str := rstripSep location ++ [pySep]

/-- Shallow embedding of `get_relative_path` (plex_ai_titler.py:222-235):
first root whose normalized form is a literal prefix wins; otherwise the
basename is returned. -/
def get_relative_path (filepath : Str) (library_locations : List Str) : Str :=
  match library_locations with
  | [] => basename filepath
  | location :: rest =>
    if (normalizeRoot location).isPrefixOf filepath then
      filepath.drop (normalizeRoot location).length
    else
      get_relative_path filepath rest

/-- Whether a string contains two consecutive path separators. -/
def hasDoubleSep : Str → Bool
  | [] => false
  | [_] => false
  | a :: b :: rest => (a = pySep && b = pySep) || hasDoubleSep (b :: rest)

deriving instance DecidableEq for Except

/-- Characters removed by Python `str.strip()` (the ASCII whitespace set). -/
def pyIsSpace (c : Char) : Bool :=
  c = ' ' || c = '\t' || c = '\n' || c = '\r' || c = '\x0b' || c = '\x0c'

/-- Python `str.strip()`. -/
def pyStrip (s : Str) : Str :=
  ((s.dropWhile pyIsSpace).reverse.dropWhile pyIsSpace).reverse

/-- Python `str.lower()` (ASCII). -/
def pyLower (s : Str) : Str := s.map Char.toLower

/-- Python's `needle in hay` substring test. -/
def isSubstr (needle hay : Str) : Bool :=
  (List.range (hay.length + 1)).any (fun i => needle.isPrefixOf (hay.drop i))

/-- Python `repr` of a natural number, as used by f-string interpolation. -/
def natStr (n : Nat) : Str := (Nat.repr n).data

/-- Python truthiness of an optional string (`None` and `""` are falsy). -/
def pyTruthy : Option Str → Bool
  | none => false
  | some s => !s.isEmpty

/-! ## Catalog items and the batch pipeline -/

/-- A lockable field of a catalog item (`field.name`, `field.locked`). -/
structure PlexField where
  name : Str
  locked : Bool
deriving DecidableEq

/-- A media part; `file` is `None` or the absolute file path. -/
structure MediaPart where
  file : Option Str
deriving DecidableEq

/-- A catalog item as consumed by the core: `hasFields`/`hasParts` model
`hasattr` probing, `parts` models `iterParts()` (a part itself may be
`None`), and `editErr` is the exception `item.editTitle` would raise
(`none` when the write-back succeeds). -/
structure Item where
  title : Str
  hasFields : Bool
  fields : List PlexField
  hasParts : Bool
  parts : List (Option MediaPart)
  editErr : Option Str := none
deriving DecidableEq

/-- Shallow embedding of `get_item_filepaths` (plex_ai_titler.py:212-219). -/
def get_item_filepaths (item : Item) : List Str :=
  if item.hasParts then
    item.parts.filterMap (fun p =>
      match p with
      | none => none
      | some part =>
        match part.file with
        | none => none
        | some f => if f = [] then none else some f)
  else []

/-- Shallow embedding of `is_title_locked` (plex_ai_titler.py:238-247). -/
def is_title_locked (item : Item) : Bool :=
  if !item.hasFields || item.fields.isEmpty then false
  else item.fields.any (fun fld => fld.name = str "title" && fld.locked)

/-- One message of a chat completion; `content` may be `None`. -/
structure Message where
  content : Option Str
deriving DecidableEq

/-- One choice of a chat completion response. -/
structure Choice where
  message : Message
deriving DecidableEq

/-- A chat completion response from the language-model service. -/
structure Response where
  choices : List Choice
deriving DecidableEq

/-- Shallow embedding of `generate_title` (plex_ai_titler.py:250-261).
The argument is the outcome of `client.chat.completions.create` (a
transport error or a response); `choices[0]` on an empty list raises
`IndexError` and `.strip()` on `None` content raises `AttributeError`,
both modelled as errors. -/
def generate_title (resp : Except Str Response) : Except Str Str :=
  match resp with
  | Except.error e => Except.error e
  | Except.ok r =>
    match r.choices with
    | [] => Except.error (str "IndexError: list index out of range")
    | c :: _ =>
      match c.message.content with
      | none => Except.error (str "AttributeError")
      | some s => Except.ok (pyStrip s)

/-- The four run counters of `process_library_items`. -/
structure Counters where
  processed : Nat
  skipped_locked : Nat
  skipped_no_file : Nat
  errors : Nat
deriving DecidableEq

/-- Sum of the four run counters. -/
def csum (c : Counters) : Nat :=
  c.processed + c.skipped_locked + c.skipped_no_file + c.errors

/-- Observable state of a batch run: the counters, the lines printed so
far, the catalog items after processing (`doneItems`), the relative
paths sent to the language-model service (`llmCalls`), and the
`(old, new)` pairs passed to `item.editTitle` (`editCalls`). -/
structure BatchState where
  counters : Counters
  output : List Str
  doneItems : List Item
  llmCalls : List Str
  editCalls : List (Str × Str)
deriving DecidableEq

/-- A Plex library section: its title, the items `library.all()`
returns, and the root folders `library.locations`. -/
structure Library where
  title : Str
  items : List Item
  locations : List Str
deriving DecidableEq

/-- `print("=" * 80)`. -/
def barLine : Str := List.replicate 80 '='

/-- One iteration of the item loop of `process_library_items`
(plex_ai_titler.py:280-312), as a step function on the batch state.
`client` maps the relative path sent as the user message to the outcome
of the completion request. -/
def process_item (client : Str → Except Str Response) (library_locations : List Str)
    (dry_run : Bool) (s : BatchState) (item : Item) : BatchState :=
  match get_item_filepaths item with
  | [] =>
    { s with
      counters := { s.counters with skipped_no_file := s.counters.skipped_no_file + 1 },
      doneItems := s.doneItems ++ [item] }
  | filepath :: _ =>
    if is_title_locked item then
      { s with
        counters := { s.counters with skipped_locked := s.counters.skipped_locked + 1 },
        output := s.output ++ [str "SKIP (locked): " ++ item.title],
        doneItems := s.doneItems ++ [item] }
    else
      let relative_path := get_relative_path filepath library_locations
      let current_title := item.title
      let s := { s with llmCalls := s.llmCalls ++ [relative_path] }
      match generate_title (client relative_path) with
      | Except.error e =>
        { s with
          counters := { s.counters with errors := s.counters.errors + 1 },
          output := s.output ++ [str "ERROR: " ++ item.title ++ str ": " ++ e],
          doneItems := s.doneItems ++ [item] }
      | Except.ok new_title =>
        if dry_run then
          { s with
            counters := { s.counters with processed := s.counters.processed + 1 },
            output := s.output ++
              [str "DRY RUN: \x27" ++ current_title ++ str "\x27 -> \x27" ++ new_title ++ str "\x27",
               str "  Path: " ++ relative_path],
            doneItems := s.doneItems ++ [item] }
        else
          match item.editErr with
          | some e =>
            { s with
              counters := { s.counters with errors := s.counters.errors + 1 },
              output := s.output ++
                [str "UPDATE: \x27" ++ current_title ++ str "\x27 -> \x27" ++ new_title ++ str "\x27",
                 str "  Path: " ++ relative_path,
                 str "ERROR: " ++ item.title ++ str ": " ++ e],
              doneItems := s.doneItems ++ [item],
              editCalls := s.editCalls ++ [(current_title, new_title)] }
          | none =>
            { s with
              counters := { s.counters with processed := s.counters.processed + 1 },
              output := s.output ++
                [str "UPDATE: \x27" ++ current_title ++ str "\x27 -> \x27" ++ new_title ++ str "\x27",
                 str "  Path: " ++ relative_path],
              doneItems := s.doneItems ++ [{ item with title := new_title }],
              editCalls := s.editCalls ++ [(current_title, new_title)] }

/-- Batch state before the item loop: zero counters and the header
lines printed by plex_ai_titler.py:268-273. -/
def initial_state (library : Library) : BatchState :=
  { counters := { processed := 0, skipped_locked := 0, skipped_no_file := 0, errors := 0 },
    output :=
      [str "\nScanning library: " ++ library.title ++ str "...",
       str "Found " ++ natStr library.items.length ++ str " items in \x27" ++ library.title ++ str "\x27",
       barLine],
    doneItems := [], llmCalls := [], editCalls := [] }

/-- The summary block printed after the loop (plex_ai_titler.py:314-322). -/
def summaryLines (c : Counters) (dry_run : Bool) : List Str :=
  [barLine, str "\nSummary:",
   str "  Processed: " ++ natStr c.processed,
   str "  Skipped (locked): " ++ natStr c.skipped_locked,
   str "  Skipped (no file): " ++ natStr c.skipped_no_file,
   str "  Errors: " ++ natStr c.errors]
  ++ (if dry_run then [str "\nThis was a DRY RUN. No changes were made."] else [])

/-- Shallow embedding of `process_library_items` (plex_ai_titler.py:264-322). -/
def process_library_items (library : Library) (client : Str → Except Str Response)
    (dry_run : Bool) : BatchState :=
  let s := library.items.foldl (process_item client library.locations dry_run)
    (initial_state library)
  { s with output := s.output ++ summaryLines s.counters dry_run }

/-- The failure condition of §4.4 step 5 for one item: the item has file
parts, is not locked, and either title generation fails or (in apply
mode) the write-back raises. `e` is the reported reason. -/
def item_failure (client : Str → Except Str Response) (locs : List Str) (dry_run : Bool)
    (x : Item) (e : Str) : Prop :=
  match get_item_filepaths x with
  | [] => False
  | filepath :: _ =>
    is_title_locked x = false ∧
    (generate_title (client (get_relative_path filepath locs)) = Except.error e ∨
      (dry_run = false ∧ x.editErr = some e ∧
        (generate_title (client (get_relative_path filepath locs))).toOption.isSome = true))

/-- The per-item error diagnostic `print(f"ERROR: {item.title}: {e}")`. -/
def error_line (title reason : Str) : Str :=
  str "ERROR: " ++ title ++ str ": " ++ reason

/-! ## Credential store -/

/-- A JSON value as produced by `json.load`. -/
inductive JsonValue where
  | obj (fields : List (Str × JsonValue))
  | arr (elems : List JsonValue)
  | strVal (s : Str)
  | numVal (n : Int)
  | boolVal (b : Bool)
  | nullVal

/-- Python `dict.get` on a JSON object (keys are unique after parsing). -/
def dictGet (fields : List (Str × JsonValue)) (key : Str) : Option JsonValue :=
  (fields.find? (fun kv => kv.1 = key)).map (fun kv => kv.2)

/-- Observable state of the credentials file when `load_cached_token`
runs: absent, unreadable (`OSError`), syntactically invalid JSON
(`json.JSONDecodeError`), or parsed content. -/
inductive CredsFile where
  | missing
  | unreadable (msg : Str)
  | invalidJson (msg : Str)
  | parsed (v : JsonValue)

/-- The Python exceptions the core distinguishes.  `keyboardInterrupt`
is a `BaseException`, not an `Exception`. -/
inductive PyExc where
  | unauthorized (msg : Str)
  | keyboardInterrupt
  | eofError
  | otherExc (msg : Str)
deriving DecidableEq

/-- Shallow embedding of `load_cached_token` (plex_ai_titler.py:77-87):
missing file, `OSError` and `json.JSONDecodeError` yield `None`; on a
parse result that is not a dict, `data.get` raises `AttributeError`,
which is not caught. -/
def load_cached_token (file : CredsFile) : Except PyExc (Option JsonValue) :=
  match file with
  | CredsFile.missing => Except.ok none
  | CredsFile.unreadable _ => Except.ok none
  | CredsFile.invalidJson _ => Except.ok none
  | CredsFile.parsed v =>
    match v with
    | JsonValue.obj fields => Except.ok (dictGet fields (str "auth_token"))
    | _ => Except.error (PyExc.otherExc (str "AttributeError"))

/-! ## Authentication flow -/

/-- A MyPlex account handle; only `authToken` is observed by the core. -/
structure Account where
  authToken : Str
deriving DecidableEq

/-- Side effects of one run of `authenticate_myplex`: the tokens passed
to `save_cached_token`, in call order, and whether `clear_cached_token`
was called. -/
structure AuthTrace where
  savedTokens : List Str
  clearedCache : Bool
deriving DecidableEq

/-- The collaborators of `authenticate_myplex`: the cached token (the
result of `load_cached_token`), the MyPlex constructors, the plexapi
`CONFIG` defaults, and the interactive reads (which may raise
`KeyboardInterrupt` or `EOFError`). -/
structure AuthEnv where
  cachedToken : Option Str
  tokenAuth : Str → Except PyExc Account
  configUsername : Option Str
  configPassword : Option Str
  readUsername : Except PyExc Str
  readPassword : Except PyExc Str
  readCode : Except PyExc Str
  passwordAuth : Str → Str → Option Str → Except PyExc Account

/-- The tail of `authenticate_myplex` on every successful
username/password path (plex_ai_titler.py:146-150): cache the token,
then return the account. -/
def auth_finish (account : Account) (tr : AuthTrace) :
    Except PyExc Account × AuthTrace :=
  (Except.ok account, { tr with savedTokens := tr.savedTokens ++ [account.authToken] })

/-- The username/password phase of `authenticate_myplex`
(plex_ai_titler.py:124-150): resolve the credentials through caller
value, `CONFIG` default and interactive prompt (empty strings are
falsy), authenticate, and on an `Unauthorized` whose message indicates
a verification code, prompt for the 2FA code and retry. -/
def auth_prompt (env : AuthEnv) (username password : Option Str) (tr : AuthTrace) :
    Except PyExc Account × AuthTrace :=
  let username := if pyTruthy username then username else env.configUsername
  let password := if pyTruthy password then password else env.configPassword
  match (if pyTruthy username then Except.ok (username.getD []) else env.readUsername.map pyStrip) with
  | Except.error e => (Except.error e, tr)
  | Except.ok uname =>
    match (if pyTruthy password then Except.ok (password.getD []) else env.readPassword) with
    | Except.error e => (Except.error e, tr)
    | Except.ok pwd =>
      match env.passwordAuth uname pwd none with
      | Except.ok account => auth_finish account tr
      | Except.error (PyExc.unauthorized msg) =>
        if isSubstr (str "verification code") (pyLower msg) || isSubstr (str "1029") msg then
          match env.readCode.map pyStrip with
          | Except.error e2 => (Except.error e2, tr)
          | Except.ok code =>
            match env.passwordAuth uname pwd (some code) with
            | Except.ok account => auth_finish account tr
            | Except.error e3 => (Except.error e3, tr)
        else (Except.error (PyExc.unauthorized msg), tr)
      | Except.error e => (Except.error e, tr)

/-- Shallow embedding of `authenticate_myplex` (plex_ai_titler.py:108-150):
try the cached token first (only `Unauthorized` falls through, after
clearing the cache), then the username/password phase. -/
def authenticate_myplex (env : AuthEnv) (username password : Option Str) :
    Except PyExc Account × AuthTrace :=
  let tr : AuthTrace := { savedTokens := [], clearedCache := false }
  if pyTruthy env.cachedToken then
    match env.tokenAuth (env.cachedToken.getD []) with
    | Except.ok account => (Except.ok account, tr)
    | Except.error (PyExc.unauthorized _) =>
      auth_prompt env username password { tr with clearedCache := true }
    | Except.error e => (Except.error e, tr)
  else
    auth_prompt env username password tr

/-- How the process ends, seen from `main` (plex_ai_titler.py:400-438):
a normal return, the clean cancellation path (`print("\nCancelled.")`
then `sys.exit(0)`, present in the selection prompts), the generic
`except Exception` handler (`print(f"Error: {e}")` then `sys.exit(1)`),
or an uncaught exception (Python traceback, non-zero status). -/
inductive ExitKind where
  | returned
  | cleanCancel
  | errorExit (msg : Str)
  | uncaught (e : PyExc)
deriving DecidableEq

/-- Whether `except Exception` in `main` catches the exception:
`KeyboardInterrupt` derives from `BaseException` only. -/
def exceptionCaughtByMain : PyExc → Bool
  | PyExc.keyboardInterrupt => false
  | _ => true

/-- `str(e)` for the modelled exceptions (`input()` at end of input
raises `EOFError("EOF when reading a line")`). -/
def excMessage : PyExc → Str
  | PyExc.unauthorized msg => msg
  | PyExc.keyboardInterrupt => []
  | PyExc.eofError => str "EOF when reading a line"
  | PyExc.otherExc msg => msg

/-- The process outcome when `main` runs `authenticate_myplex`
(plex_ai_titler.py:419 inside the try of 400-438). -/
def main_auth (env : AuthEnv) (u p : Option Str) : ExitKind :=
  match (authenticate_myplex env u p).1 with
  | Except.ok _ => ExitKind.returned
  | Except.error e =>
    if exceptionCaughtByMain e then
      ExitKind.errorExit (str "Error: " ++ excMessage e)
    else ExitKind.uncaught e

/-! ## Concrete inputs used by counterexamples and witnesses -/

/-- An environment whose cached token is accepted by the service. -/
def env_cached : AuthEnv :=
  { cachedToken := some (str "CACHED-TOKEN"),
    tokenAuth := fun t => Except.ok { authToken := t },
    configUsername := none, configPassword := none,
    readUsername := Except.ok (str "user"),
    readPassword := Except.ok (str "pw"),
    readCode := Except.ok (str "000000"),
    passwordAuth := fun _ _ _ => Except.ok { authToken := str "PW-TOKEN" } }

/-- An environment with no cached token where password authentication
succeeds using configured defaults. -/
def env_pw : AuthEnv :=
  { cachedToken := none,
    tokenAuth := fun _ => Except.error (PyExc.otherExc (str "unused")),
    configUsername := some (str "user"), configPassword := some (str "pw"),
    readUsername := Except.error PyExc.eofError,
    readPassword := Except.error PyExc.eofError,
    readCode := Except.error PyExc.eofError,
    passwordAuth := fun _ _ _ => Except.ok { authToken := str "PW-TOKEN" } }

/-- An environment where the user presses Ctrl-C at the username prompt. -/
def env_interrupt : AuthEnv :=
  { cachedToken := none,
    tokenAuth := fun _ => Except.error (PyExc.otherExc (str "unused")),
    configUsername := none, configPassword := none,
    readUsername := Except.error PyExc.keyboardInterrupt,
    readPassword := Except.error PyExc.keyboardInterrupt,
    readCode := Except.error PyExc.keyboardInterrupt,
    passwordAuth := fun _ _ _ => Except.error (PyExc.unauthorized (str "unused")) }

/-- An environment where the user closes stdin at the username prompt. -/
def env_eof : AuthEnv :=
  { env_interrupt with readUsername := Except.error PyExc.eofError }

/-- A locked item with no file parts. -/
def lockedNoFileItem : Item :=
  { title := str "Orphan", hasFields := true,
    fields := [{ name := str "title", locked := true }],
    hasParts := false, parts := [], editErr := none }

/-- A locked item with one file part. -/
def lockedFileItem : Item :=
  { title := str "Pinned", hasFields := true,
    fields := [{ name := str "title", locked := true }],
    hasParts := true, parts := [some { file := some (str "/media/Movies/Pinned/p.mkv") }],
    editErr := none }

/-- An unlocked item with one file part. -/
def plainItem : Item :=
  { title := str "Old Title", hasFields := true,
    fields := [{ name := str "title", locked := false }],
    hasParts := true, parts := [some { file := some (str "/media/Movies/Plain/m.mkv") }],
    editErr := none }

/-- A client that always fails with a transport error. -/
def client_err : Str → Except Str Response :=
  fun _ => Except.error (str "Connection error")

/-- A client that always answers with the completion text `Nice Title`. -/
def client_ok : Str → Except Str Response :=
  fun _ => Except.ok { choices := [{ message := { content := some (str " Nice Title ") } }] }

/-- A library containing only the locked, file-less item. -/
def lib_lockedNoFile : Library :=
  { title := str "Movies", items := [lockedNoFileItem], locations := [str "/media/Movies"] }

/-- A library with one failing item between two processable items. -/
def lib_mixed : Library :=
  { title := str "Movies", items := [plainItem, lockedFileItem, plainItem],
    locations := [str "/media/Movies"] }

/-! ## Lemmas about the path resolver -/

lemma prefix_decomp {p f : Str} (h : p.isPrefixOf f = true) : ∃ r, f = p ++ r := by
  obtain ⟨r, hr⟩ := List.isPrefixOf_iff_prefix.mp h
  exact ⟨r, hr.symm⟩

lemma hasDoubleSep_append_double (q r : Str) :
    hasDoubleSep (q ++ pySep :: pySep :: r) = true := by
  induction q with
  | nil => simp [hasDoubleSep]
  | cons a as ih =>
    cases as with
    | nil => simp [hasDoubleSep]
    | cons b bs =>
      simp only [List.cons_append] at ih ⊢
      rw [hasDoubleSep]
      simp [ih]

lemma grp_no_match (filepath : Str) (locs : List Str)
    (h : ∀ l ∈ locs, (normalizeRoot l).isPrefixOf filepath = false) :
    get_relative_path filepath locs = basename filepath := by
  induction locs with
  | nil => rfl
  | cons a as ih =>
    rw [get_relative_path]
    rw [if_neg (by simp [h a (List.mem_cons_self a as)])]
    exact ih (fun l hl => h l (List.mem_cons_of_mem a hl))

lemma grp_first_match (filepath : Str) (pre : List Str) (loc : Str) (post : List Str)
    (hpre : ∀ l ∈ pre, (normalizeRoot l).isPrefixOf filepath = false)
    (hloc : (normalizeRoot loc).isPrefixOf filepath = true) :
    get_relative_path filepath (pre ++ loc :: post)
      = filepath.drop (normalizeRoot loc).length := by
  induction pre with
  | nil =>
    rw [List.nil_append, get_relative_path, if_pos (by simp [hloc])]
  | cons a as ih =>
    rw [List.cons_append, get_relative_path]
    rw [if_neg (by simp [hpre a (List.mem_cons_self a as)])]
    exact ih (fun l hl => hpre l (List.mem_cons_of_mem a hl))

lemma grp_drop_no_leading_sep (filepath : Str) (loc : Str)
    (hloc : (normalizeRoot loc).isPrefixOf filepath = true)
    (hnd : hasDoubleSep filepath = false) :
    (filepath.drop (normalizeRoot loc).length).head? ≠ some pySep := by
  obtain ⟨r, hr⟩ := prefix_decomp hloc
  subst hr
  rw [List.drop_left]
  intro hhead
  cases r with
  | nil => simp at hhead
  | cons c r' =>
    simp only [List.head?_cons, Option.some.injEq] at hhead
    subst hhead
    rw [show normalizeRoot loc ++ pySep :: r' = rstripSep loc ++ pySep :: pySep :: r' by
      simp [normalizeRoot]] at hnd
    rw [hasDoubleSep_append_double] at hnd
    exact absurd hnd (by simp)

/-! ## Lemmas about the batch pipeline -/

lemma process_item_counters (client : Str → Except Str Response) (locs : List Str)
    (dry_run : Bool) (s : BatchState) (x : Item) :
    (process_item client locs dry_run s x).counters
        = { s.counters with processed := s.counters.processed + 1 } ∨
      (process_item client locs dry_run s x).counters
        = { s.counters with skipped_locked := s.counters.skipped_locked + 1 } ∨
      (process_item client locs dry_run s x).counters
        = { s.counters with skipped_no_file := s.counters.skipped_no_file + 1 } ∨
      (process_item client locs dry_run s x).counters
        = { s.counters with errors := s.counters.errors + 1 } := by
  rcases hfp : get_item_filepaths x with _ | ⟨fp, rest⟩
  · right; right; left; simp [process_item, hfp]
  · cases hl : is_title_locked x
    · rcases hg : generate_title (client (get_relative_path fp locs)) with e | t
      · right; right; right; simp [process_item, hfp, hl, hg]
      · cases dry_run
        · rcases he : x.editErr with _ | e2
          · left; simp [process_item, hfp, hl, hg, he]
          · right; right; right; simp [process_item, hfp, hl, hg, he]
        · left; simp [process_item, hfp, hl, hg]
    · right; left; simp [process_item, hfp, hl]

lemma process_item_csum (client : Str → Except Str Response) (locs : List Str)
    (dry_run : Bool) (s : BatchState) (x : Item) :
    csum (process_item client locs dry_run s x).counters = csum s.counters + 1 := by
  rcases process_item_counters client locs dry_run s x with h | h | h | h <;>
    simp [csum, h] <;> omega

lemma foldl_csum (client : Str → Except Str Response) (locs : List Str)
    (dry_run : Bool) (items : List Item) (s : BatchState) :
    csum ((items.foldl (process_item client locs dry_run) s).counters)
      = csum s.counters + items.length := by
  induction items generalizing s with
  | nil => simp
  | cons x xs ih =>
    rw [List.foldl_cons, ih, process_item_csum]
    simp [List.length_cons]
    omega

lemma process_item_dry (client : Str → Except Str Response) (locs : List Str)
    (s : BatchState) (x : Item) :
    (process_item client locs true s x).editCalls = s.editCalls ∧
    (process_item client locs true s x).doneItems = s.doneItems ++ [x] := by
  rcases hfp : get_item_filepaths x with _ | ⟨fp, rest⟩
  · simp [process_item, hfp]
  · cases hl : is_title_locked x
    · rcases hg : generate_title (client (get_relative_path fp locs)) with e | t <;>
        simp [process_item, hfp, hl, hg]
    · simp [process_item, hfp, hl]

lemma foldl_dry (client : Str → Except Str Response) (locs : List Str)
    (items : List Item) (s : BatchState) :
    (items.foldl (process_item client locs true) s).editCalls = s.editCalls ∧
    (items.foldl (process_item client locs true) s).doneItems = s.doneItems ++ items := by
  induction items generalizing s with
  | nil => simp
  | cons x xs ih =>
    rw [List.foldl_cons]
    obtain ⟨h1, h2⟩ := ih (process_item client locs true s x)
    obtain ⟨g1, g2⟩ := process_item_dry client locs s x
    exact ⟨h1.trans g1, by rw [h2, g2]; simp⟩

/-! ## Claim theorems -/

/-- C6 (counterexample): with root `/a` and path `/a//b.mkv` the
normalized root `/a/` is a literal prefix, and the returned remainder
`/b.mkv` begins with a path separator, contrary to the claim. -/
theorem C6_counterexample :
    (normalizeRoot (str "/a")).isPrefixOf (str "/a//b.mkv") = true ∧
    get_relative_path (str "/a//b.mkv") [str "/a"] = str "/b.mkv" ∧
    (str "/b.mkv").head? = some pySep := by decide

/-- C6 (amended): `get_relative_path` returns the remainder of the path
after the earliest root (in input order) whose normalization is a
literal prefix of the path; when no root matches it returns exactly the
basename; and the remainder has no leading separator provided the path
contains no two consecutive separators. -/
theorem C6_resolve_first_match_basename :
    ∀ (filepath : Str) (locs pre post : List Str) (loc : Str),
      ((∀ l ∈ locs, (normalizeRoot l).isPrefixOf filepath = false) →
        get_relative_path filepath locs = basename filepath) ∧
      ((∀ l ∈ pre, (normalizeRoot l).isPrefixOf filepath = false) →
        (normalizeRoot loc).isPrefixOf filepath = true →
        (get_relative_path filepath (pre ++ loc :: post)
            = filepath.drop (normalizeRoot loc).length ∧
          (hasDoubleSep filepath = false →
            (get_relative_path filepath (pre ++ loc :: post)).head? ≠ some pySep))) := by
  intro filepath locs pre post loc
  refine ⟨grp_no_match filepath locs, fun hpre hloc => ⟨grp_first_match filepath pre loc post hpre hloc, fun hnd => ?_⟩⟩
  rw [grp_first_match filepath pre loc post hpre hloc]
  exact grp_drop_no_leading_sep filepath loc hloc hnd

/-- C6 (witness): scenario C of the spec — root `/media/Movies/` after a
non-matching root `/media/TV`, file
`/media/Movies/Inception (2010)/Inception.mkv`, resolved path
`Inception (2010)/Inception.mkv`; and a path under no root resolves to
its basename. -/
theorem C6_witness :
    get_relative_path (str "/media/Movies/Inception (2010)/Inception.mkv")
        [str "/media/TV", str "/media/Movies/"]
      = str "Inception (2010)/Inception.mkv" ∧
    (get_relative_path (str "/media/Movies/Inception (2010)/Inception.mkv")
        [str "/media/TV", str "/media/Movies/"]).head? ≠ some pySep ∧
    get_relative_path (str "/elsewhere/file.mkv") [str "/media/Movies"]
      = str "file.mkv" := by
  have h := (C6_resolve_first_match_basename
      (str "/media/Movies/Inception (2010)/Inception.mkv")
      [] [str "/media/TV"] [] (str "/media/Movies/")).2
      (by decide) (by decide)
  have h2 := (C6_resolve_first_match_basename (str "/elsewhere/file.mkv")
      [str "/media/Movies"] [] [] (str "/media/Movies")).1 (by decide)
  exact ⟨h.1.trans (by decide), h.2 (by decide), h2.trans (by decide)⟩

/-- C9: the run counters start at zero (and are natural numbers, hence
non-negative), every iterated item increments exactly one of the four
counters by exactly one, and at the end of the batch their sum equals
the number of items iterated. -/
theorem C9_counter_invariants :
    ∀ (library : Library) (client : Str → Except Str Response) (dry_run : Bool),
      (initial_state library).counters
          = { processed := 0, skipped_locked := 0, skipped_no_file := 0, errors := 0 } ∧
      (∀ (s : BatchState) (x : Item),
        (process_item client library.locations dry_run s x).counters
            = { s.counters with processed := s.counters.processed + 1 } ∨
          (process_item client library.locations dry_run s x).counters
            = { s.counters with skipped_locked := s.counters.skipped_locked + 1 } ∨
          (process_item client library.locations dry_run s x).counters
            = { s.counters with skipped_no_file := s.counters.skipped_no_file + 1 } ∨
          (process_item client library.locations dry_run s x).counters
            = { s.counters with errors := s.counters.errors + 1 }) ∧
      csum (process_library_items library client dry_run).counters
        = library.items.length := by
  intro library client dry_run
  refine ⟨rfl, process_item_counters client library.locations dry_run, ?_⟩
  have h := foldl_csum client library.locations dry_run library.items (initial_state library)
  simpa [process_library_items, csum, initial_state] using h

/-- C7: in preview (dry-run) mode the item-mutation operation is never
invoked and the catalog is left unchanged, so a second preview run over
the resulting catalog with the same generator produces the identical
batch result (same counters, same proposed title pairs, same output). -/
theorem C7_dry_run_idempotent :
    ∀ (library : Library) (client : Str → Except Str Response),
      (process_library_items library client true).editCalls = [] ∧
      (process_library_items library client true).doneItems = library.items ∧
      process_library_items
          { library with items := (process_library_items library client true).doneItems }
          client true
        = process_library_items library client true := by
  intro library client
  have h := foldl_dry client library.locations library.items (initial_state library)
  have he : (process_library_items library client true).editCalls = [] := by
    simpa [process_library_items, initial_state] using h.1
  have hd : (process_library_items library client true).doneItems = library.items := by
    simpa [process_library_items, initial_state] using h.2
  refine ⟨he, hd, ?_⟩
  rw [hd]

/-- C5: a failing item (title generation or write-back) increments only
the errors counter, a diagnostic with the item's current title and the
failure reason is printed, the fold continues over the remaining items,
and the four-counter summary block is always appended to the output. -/
theorem C5_failure_isolated :
    ∀ (library : Library) (client : Str → Except Str Response) (dry_run : Bool)
      (pre post : List Item) (x : Item) (e : Str) (s : BatchState),
      item_failure client library.locations dry_run x e →
      ((pre ++ x :: post).foldl (process_item client library.locations dry_run) s
          = post.foldl (process_item client library.locations dry_run)
              (process_item client library.locations dry_run
                (pre.foldl (process_item client library.locations dry_run) s) x) ∧
        (process_item client library.locations dry_run s x).counters
          = { s.counters with errors := s.counters.errors + 1 } ∧
        error_line x.title e ∈ (process_item client library.locations dry_run s x).output ∧
        (process_library_items library client dry_run).output
          = (library.items.foldl (process_item client library.locations dry_run)
                (initial_state library)).output
              ++ summaryLines
                  (library.items.foldl (process_item client library.locations dry_run)
                      (initial_state library)).counters dry_run) := by
  intro library client dry_run pre post x e s hf
  rcases hfp : get_item_filepaths x with _ | ⟨fp, rest⟩
  · rw [item_failure, hfp] at hf
    exact absurd hf id
  · rw [item_failure, hfp] at hf
    obtain ⟨hl, hcase⟩ := hf
    refine ⟨by rw [List.foldl_append, List.foldl_cons], ?_, ?_, rfl⟩
    · rcases hcase with hg | ⟨hdry, hedit, hok⟩
      · simp [process_item, hfp, hl, hg]
      · rcases hg : generate_title (client (get_relative_path fp library.locations)) with e2 | t
        · rw [hg] at hok
          simp [Except.toOption] at hok
        · subst hdry
          simp [process_item, hfp, hl, hg, hedit]
    · rcases hcase with hg | ⟨hdry, hedit, hok⟩
      · simp [process_item, hfp, hl, hg, error_line]
      · rcases hg : generate_title (client (get_relative_path fp library.locations)) with e2 | t
        · rw [hg] at hok
          simp [Except.toOption] at hok
        · subst hdry
          simp [process_item, hfp, hl, hg, hedit, error_line]

/-- C5 (witness): with a client whose requests always fail, the first
item of the mixed library increments only the errors counter and its
diagnostic line carries its title and the transport failure reason. -/
theorem C5_witness :
    (process_item client_err [str "/media/Movies"] true
        (initial_state lib_mixed) plainItem).counters
      = { (initial_state lib_mixed).counters with
          errors := (initial_state lib_mixed).counters.errors + 1 } ∧
    error_line plainItem.title (str "Connection error")
      ∈ (process_item client_err [str "/media/Movies"] true
          (initial_state lib_mixed) plainItem).output := by
  have h := C5_failure_isolated lib_mixed client_err true [] [lockedFileItem, plainItem]
      plainItem (str "Connection error") (initial_state lib_mixed) ⟨rfl, Or.inl rfl⟩
  exact ⟨h.2.1, h.2.2.1⟩

/-- C3 (counterexample): a locked item with an empty file-part list is
counted in skipped_no_file, not in skipped_locked, because the batch
checks the file list before the lock state. -/
theorem C3_counterexample :
    is_title_locked lockedNoFileItem = true ∧
    (process_library_items lib_lockedNoFile client_err true).counters
      = { processed := 0, skipped_locked := 0, skipped_no_file := 1, errors := 0 } := by
  decide

/-- C3 (amended): a locked item with a non-empty file-path list
increments exactly the skipped_locked counter, and no request is made
to the language-model service for any locked item. -/
theorem C3_locked_skip_no_llm :
    ∀ (client : Str → Except Str Response) (locs : List Str) (dry_run : Bool)
      (s : BatchState) (item : Item),
      is_title_locked item = true →
      ((get_item_filepaths item ≠ [] →
          (process_item client locs dry_run s item).counters
            = { s.counters with skipped_locked := s.counters.skipped_locked + 1 }) ∧
        (process_item client locs dry_run s item).llmCalls = s.llmCalls) := by
  intro client locs dry_run s item hlock
  constructor
  · intro hne
    rcases hfp : get_item_filepaths item with _ | ⟨fp, rest⟩
    · exact absurd hfp hne
    · simp [process_item, hfp, hlock]
  · rcases hfp : get_item_filepaths item with _ | ⟨fp, rest⟩ <;>
      simp [process_item, hfp, hlock]

/-- C3 (witness): the locked item with a file part is skipped as locked
and no language-model call is recorded for it. -/
theorem C3_witness :
    (process_item client_ok [str "/media/Movies"] true
        (initial_state lib_mixed) lockedFileItem).counters
      = { (initial_state lib_mixed).counters with
          skipped_locked := (initial_state lib_mixed).counters.skipped_locked + 1 } ∧
    (process_item client_ok [str "/media/Movies"] true
        (initial_state lib_mixed) lockedFileItem).llmCalls
      = (initial_state lib_mixed).llmCalls := by
  have h := C3_locked_skip_no_llm client_ok [str "/media/Movies"] true
      (initial_state lib_mixed) lockedFileItem rfl
  exact ⟨h.1 (by decide), h.2⟩

/-- C8 (counterexample): an empty completion string is returned as the
empty title rather than propagating a failure. -/
theorem C8_counterexample :
    generate_title (Except.ok { choices := [{ message := { content := some [] } }] })
      = Except.ok [] := rfl

/-- C8 (amended): `generate_title` returns the completion text with
surrounding whitespace removed whenever the first choice carries string
content (an empty string included); transport errors, responses without
choices, and null content propagate as failures. -/
theorem C8_generate_title_amended :
    ∀ (e : Str) (r : Response),
      generate_title (Except.error e) = Except.error e ∧
      (r.choices = [] →
        generate_title (Except.ok r)
          = Except.error (str "IndexError: list index out of range")) ∧
      (∀ c rest, r.choices = c :: rest → c.message.content = none →
        generate_title (Except.ok r) = Except.error (str "AttributeError")) ∧
      (∀ c rest s, r.choices = c :: rest → c.message.content = some s →
        generate_title (Except.ok r) = Except.ok (pyStrip s)) := by
  intro e r
  refine ⟨rfl, fun h => by simp [generate_title, h],
    fun c rest h hc => by simp [generate_title, h, hc],
    fun c rest s h hc => by simp [generate_title, h, hc]⟩

/-- C8 (witness): a padded completion is stripped, a transport error and
an empty choice list propagate as failures. -/
theorem C8_witness :
    generate_title
        (Except.ok { choices := [{ message := { content := some (str " A Movie ") } }] })
      = Except.ok (str "A Movie") ∧
    generate_title (Except.error (str "Connection error"))
      = Except.error (str "Connection error") ∧
    generate_title (Except.ok { choices := [] })
      = Except.error (str "IndexError: list index out of range") := by
  have h := C8_generate_title_amended (str "Connection error")
    { choices := [{ message := { content := some (str " A Movie ") } }] }
  have h0 := C8_generate_title_amended (str "x") ({ choices := [] } : Response)
  exact ⟨(h.2.2.2 _ [] (str " A Movie ") rfl rfl).trans (by decide), h.1, h0.2.1 rfl⟩

/-- C4 (counterexample): a credentials file holding valid JSON whose top
level is not an object (here `[]`) makes `load_cached_token` raise
`AttributeError` to its caller instead of returning absent. -/
theorem C4_counterexample :
    load_cached_token (CredsFile.parsed (JsonValue.arr []))
      = Except.error (PyExc.otherExc (str "AttributeError")) := rfl

/-- C4 (amended): `load_cached_token` returns absent on a missing file,
an I/O error, or content that is not syntactically valid JSON; but valid
JSON whose top level is not an object raises to the caller. -/
theorem C4_load_silent_amended :
    ∀ (msg : Str) (v : JsonValue),
      load_cached_token CredsFile.missing = Except.ok none ∧
      load_cached_token (CredsFile.unreadable msg) = Except.ok none ∧
      load_cached_token (CredsFile.invalidJson msg) = Except.ok none ∧
      ((∀ fields, v ≠ JsonValue.obj fields) →
        load_cached_token (CredsFile.parsed v)
          = Except.error (PyExc.otherExc (str "AttributeError"))) := by
  intro msg v
  refine ⟨rfl, rfl, rfl, fun h => ?_⟩
  cases v with
  | obj fields => exact absurd rfl (h fields)
  | arr l => rfl
  | strVal s => rfl
  | numVal n => rfl
  | boolVal b => rfl
  | nullVal => rfl

/-- C4 (witness): the silent cases and the raising non-object case at
concrete file states. -/
theorem C4_witness :
    load_cached_token CredsFile.missing = Except.ok none ∧
    load_cached_token (CredsFile.unreadable (str "Permission denied")) = Except.ok none ∧
    load_cached_token (CredsFile.invalidJson (str "Expecting value")) = Except.ok none ∧
    load_cached_token (CredsFile.parsed (JsonValue.strVal (str "tok")))
      = Except.error (PyExc.otherExc (str "AttributeError")) := by
  have h := C4_load_silent_amended (str "Permission denied") (JsonValue.strVal (str "tok"))
  have h2 := C4_load_silent_amended (str "Expecting value") JsonValue.nullVal
  exact ⟨h.1, h.2.1, h2.2.2.1,
    h.2.2.2 (fun fields hh => JsonValue.noConfusion hh)⟩

lemma auth_prompt_saved (env : AuthEnv) (u p : Option Str) (tr tr' : AuthTrace)
    (account : Account)
    (h : auth_prompt env u p tr = (Except.ok account, tr')) :
    tr'.savedTokens = tr.savedTokens ++ [account.authToken] := by
  unfold auth_prompt auth_finish at h
  repeat' (first | split at h | simp_all)
  all_goals
    obtain ⟨h1, h2⟩ := h
  all_goals
    subst h1
  all_goals
    rw [← h2]

/-- C1 (counterexample): when the cached token is accepted, the flow
returns the session handle without ever invoking `save_cached_token`. -/
theorem C1_counterexample :
    (authenticate_myplex env_cached none none).1
        = Except.ok { authToken := str "CACHED-TOKEN" } ∧
    (authenticate_myplex env_cached none none).2.savedTokens = [] := ⟨rfl, rfl⟩

/-- C1 (amended): every execution reaching the authenticated state
persists the resulting token via a `save_cached_token` call before
returning, except the path on which the cached token itself succeeded,
which returns without saving. -/
theorem C1_save_before_return :
    ∀ (env : AuthEnv) (u p : Option Str) (account : Account) (tr : AuthTrace),
      authenticate_myplex env u p = (Except.ok account, tr) →
      (tr.savedTokens = [account.authToken] ∨
        (tr.savedTokens = [] ∧ pyTruthy env.cachedToken = true ∧
          env.tokenAuth (env.cachedToken.getD []) = Except.ok account)) := by
  intro env u p account tr h
  unfold authenticate_myplex at h
  split at h
  case isTrue hc =>
    split at h
    case h_1 a heq =>
      rw [Prod.mk.injEq] at h
      obtain ⟨h1, h2⟩ := h
      rw [Except.ok.injEq] at h1
      subst h1
      right
      exact ⟨by rw [← h2], hc, heq⟩
    case h_2 _ heq =>
      left
      have hs := auth_prompt_saved env u p _ tr account h
      simpa using hs
    case h_3 e heq _ =>
      simp at h
  case isFalse hc =>
    left
    have hs := auth_prompt_saved env u p _ tr account h
    simpa using hs

/-- C1 (witness): a run that authenticates with configured
username/password saves exactly the resulting token. -/
theorem C1_witness :
    ({ savedTokens := [str "PW-TOKEN"], clearedCache := false } : AuthTrace).savedTokens
        = [str "PW-TOKEN"] ∨
      (({ savedTokens := [str "PW-TOKEN"], clearedCache := false } : AuthTrace).savedTokens
          = [] ∧
        pyTruthy env_pw.cachedToken = true ∧
        env_pw.tokenAuth (env_pw.cachedToken.getD [])
          = Except.ok { authToken := str "PW-TOKEN" }) :=
  C1_save_before_return env_pw none none { authToken := str "PW-TOKEN" }
    { savedTokens := [str "PW-TOKEN"], clearedCache := false } rfl

/-- C2: user cancellation at the username prompt is not handled by
`authenticate_myplex`: a `KeyboardInterrupt` escapes `main` uncaught
(traceback, non-zero status) and an `EOFError` is absorbed by the
generic `except Exception` handler (`Error: ...`, exit status 1);
neither takes the clean-cancellation path the claim describes. -/
theorem C2_cancellation_not_clean :
    main_auth env_interrupt none none = ExitKind.uncaught PyExc.keyboardInterrupt ∧
    main_auth env_eof none none
      = ExitKind.errorExit (str "Error: EOF when reading a line") ∧
    main_auth env_interrupt none none ≠ ExitKind.cleanCancel ∧
    main_auth env_eof none none ≠ ExitKind.cleanCancel := by
  exact ⟨rfl, rfl, by decide, by decide⟩

/-- C10: an empty-string username or password supplied by the caller is
treated exactly like an absent one — the flow behaves identically,
falling through to the configured default and then to prompting. -/
theorem C10_empty_credentials_absent :
    ∀ (env : AuthEnv) (u p : Option Str),
      authenticate_myplex env (some []) p = authenticate_myplex env none p ∧
      authenticate_myplex env u (some []) = authenticate_myplex env u none := by
  intro env u p
  exact ⟨rfl, rfl⟩
